import Mathlib

set_option maxRecDepth 8000

/-!
Verification of the RAG chat backend (DIVB297/backend).

Shallow embedding of the query-pipeline core:
* `GeminiService` (src/services/geminiService.ts): prompt building,
  `retryWithBackoff` with model fallback and a preferred-model index.
* `VectorStoreService` (src/services/vectorStoreService.ts): `searchSimilar`
  with reconnect / empty-index / error fallback, write operations, counting.
* `EmbeddingService.generateLocalEmbedding` (local deterministic fallback).
* `RagService.processQuery` / `processStreamQuery` (pipeline orchestration).

External effects (the Gemini SDK, ChromaDB, clocks, uuid) are modelled as
explicit environment parameters; JS numbers are modelled as `Rat` (the claims
settled here do not depend on float rounding), and `Math.sin` is an abstract
function parameter since only determinism and length of the local embedding
are at stake.
-/

/-! ## Generation Provider Adapter (geminiService.ts) -/

/-- Outcome of one attempt of the wrapped operation on one model:
either the operation resolves with an output string, or it throws an error
whose message may or may not match the retryable patterns
(503 / overloaded / rate limit / quota / 429). -/
inductive Attempt where
  | success (output : String)
  | failure (retryable : Bool) (message : String)
deriving Repr, DecidableEq

/-- Result of the inner attempt loop on a single model: the operation
succeeded on some attempt, or the model was given up on (retries exhausted or
a non-retryable error), together with how many attempts were consumed. -/
inductive ModelRun where
  | success (output : String) (attemptsUsed : Nat)
  | exhausted (lastError : String) (attemptsUsed : Nat)
deriving Repr, DecidableEq

/-- Inner `for (let attempt = 0; attempt <= maxRetries; attempt++)` loop of
`GeminiService.retryWithBackoff`, for one model. `op a` is the outcome of the
wrapped operation on attempt number `a`. On success the loop resolves; on
failure it breaks out (moving to the next model) when `attempt === maxRetries`
or the error is not retryable, and otherwise sleeps and retries the same
model. Recursion is on `fuel`, initially `maxRetries + 1`; the `fuel = 0`
base case is unreachable from the initial call. -/
def runModel (op : Nat → Attempt) (maxRetries : Nat) : Nat → Nat → ModelRun
  | 0, attempt => ModelRun.exhausted "" attempt
  | fuel + 1, attempt =>
    match op attempt with
    | Attempt.success out => ModelRun.success out (attempt + 1)
    | Attempt.failure retryable msg =>
      if attempt = maxRetries then ModelRun.exhausted msg (attempt + 1)
      else if retryable then runModel op maxRetries fuel (attempt + 1)
      else ModelRun.exhausted msg (attempt + 1)

/-- Observable outcome of one `retryWithBackoff` call: the resolved output or
the rejected last error, the value of `currentModelIndex` after the call, and
a trace listing, in order, each model index actually tried together with the
number of attempts spent on it. -/
structure RetryOutcome where
  result : Except String String
  newModelIndex : Nat
  trace : List (Nat × Nat)
deriving Repr

/-- Outer `for (let modelIndex = 0; ...)` loop of
`GeminiService.retryWithBackoff`: models are tried at indices
`(currentModelIndex + modelIndex) % numModels`; the first success records its
index as the new preferred index and resolves; if every model is exhausted the
call rejects with the last error seen. `behavior m a` is the outcome of the
wrapped operation on model index `m`, attempt `a`. -/
def retryLoop (numModels : Nat) (behavior : Nat → Nat → Attempt)
    (currentModelIndex maxRetries : Nat) (lastError : String) :
    Nat → Nat → RetryOutcome
  | 0, _ =>
    { result := Except.error lastError, newModelIndex := currentModelIndex,
      trace := [] }
  | remaining + 1, modelIndex =>
    let actualModelIndex := (currentModelIndex + modelIndex) % numModels
    match runModel (behavior actualModelIndex) maxRetries (maxRetries + 1) 0 with
    | ModelRun.success out used =>
        { result := Except.ok out, newModelIndex := actualModelIndex,
          trace := [(actualModelIndex, used)] }
    | ModelRun.exhausted err used =>
        let rest := retryLoop numModels behavior currentModelIndex maxRetries
          err remaining (modelIndex + 1)
        { result := rest.result, newModelIndex := rest.newModelIndex,
          trace := (actualModelIndex, used) :: rest.trace }

/-- `GeminiService.retryWithBackoff(operation, maxRetries, baseDelay)`.
The initial `lastError` stands for `lastError || new Error('All models
failed')` when no model was ever tried. Backoff delays do not affect the
resolved value and are not modelled. -/
def retryWithBackoff (numModels : Nat) (behavior : Nat → Nat → Attempt)
    (currentModelIndex maxRetries : Nat) : RetryOutcome :=
  retryLoop numModels behavior currentModelIndex maxRetries
    "All models failed" numModels 0

/-- Default of the `maxRetries` parameter of `retryWithBackoff`. -/
def defaultMaxRetries : Nat := 3

/-- The three model names configured in the `GeminiService` constructor. -/
def modelNames : List String :=
  ["gemini-1.5-flash", "gemini-1.5-pro", "gemini-2.5-flash"]

/-! ## Data model (src/types/index.ts)

Document metadata is a loosely typed `Record<string, any>` in the source; it
is modelled as a record of the named optional fields the code actually reads
and writes. -/

/-- Metadata bag attached to stored documents and search results. -/
structure Metadata where
  articleId : Option String := none
  title : Option String := none
  url : Option String := none
  source : Option String := none
  publishedAt : Option String := none
deriving Repr, DecidableEq

/-- The `SearchResult` interface. Scores are JS numbers, modelled as `Rat`. -/
structure SearchResult where
  articleId : String
  content : String
  score : ℚ
  metadata : Metadata
deriving Repr, DecidableEq

/-- The `EmbeddingVector` interface (stored document chunk). -/
structure EmbeddingVector where
  id : String
  articleId : String
  content : String
  embedding : List ℚ
  metadata : Metadata
deriving Repr, DecidableEq

/-! ## Prompt construction (geminiService.ts) -/

/-- JS truthiness test used by the `a || b` fallbacks on optional string
fields: both `undefined` and the empty string are falsy. -/
def truthyString : Option String → Option String
  | some s => if s = "" then none else some s
  | none => none

/-- The `source` label of one context entry in `formatContext`:
`result.metadata?.title || result.metadata?.url || $\x7bSource index+1\x7d`. -/
def sourceLabel (md : Metadata) (index : Nat) : String :=
  (truthyString md.title).getD
    ((truthyString md.url).getD ("Source " ++ toString (index + 1)))

/-- `GeminiService.formatContext`. -/
def formatContext (searchResults : List SearchResult) : String :=
  if searchResults.length = 0 then
    "No relevant context found."
  else
    String.intercalate "\n"
      (searchResults.enum.map (fun p =>
        "[" ++ toString (p.1 + 1) ++ "] " ++ sourceLabel p.2.metadata p.1 ++
          "\n" ++ p.2.content ++ "\n"))

/-- `GeminiService.buildPrompt` (the template literal, verbatim; apostrophes
written as \x27). -/
def buildPrompt (query : String) (context : String) : String :=
  "You are a helpful AI assistant for a news website. Answer the user\x27s question based on the provided news articles context. If the context doesn\x27t contain relevant information, politely say so and provide what general knowledge you can while being clear about the limitations.\n\nContext from recent news articles:\n"
    ++ context
    ++ "\n\nUser Question: "
    ++ query
    ++ "\n\nPlease provide a comprehensive answer based on the context above. If you reference information from the articles, be specific about which source you\x27re referencing. Keep your response informative but concise."

/-- `GeminiService.generateResponse`: format the context, build the prompt,
and run the wrapped `model.generateContent(prompt)` operation through
`retryWithBackoff`. `genBehavior prompt m a` is the outcome of that operation
for a given prompt on model index `m`, attempt `a`. -/
def generateResponse (numModels : Nat)
    (genBehavior : String → Nat → Nat → Attempt)
    (currentModelIndex maxRetries : Nat) (query : String)
    (context : List SearchResult) : RetryOutcome :=
  retryWithBackoff numModels
    (genBehavior (buildPrompt query (formatContext context)))
    currentModelIndex maxRetries

/-- `GeminiService.generateStreamResponse`: identical control flow to
`generateResponse` — same context formatting, same prompt, same
`retryWithBackoff` wrapping — with the wrapped operation streaming chunks to
the socket and resolving with the concatenated full response (a stream error
mid-flight rejects the whole attempt, which is what `Attempt.failure`
models). -/
def generateStreamResponse (numModels : Nat)
    (genBehavior : String → Nat → Nat → Attempt)
    (currentModelIndex maxRetries : Nat) (query : String)
    (context : List SearchResult) : RetryOutcome :=
  retryWithBackoff numModels
    (genBehavior (buildPrompt query (formatContext context)))
    currentModelIndex maxRetries

/-! ## Vector Index Adapter (vectorStoreService.ts)

ChromaDB is external; its responses are supplied by a `SearchEnv` /
`WriteEnv`. `Except.error` models a rejected promise (a thrown error). -/

/-- The `[0]`-projections of a Chroma `collection.query` reply that
`searchSimilar` reads: `results.ids[0]`, `results.documents[0]`,
`results.distances[0]`, `results.metadatas[0]`. A missing or empty outer
array is modelled by an empty `ids` list; `none` entries model `null` or
`undefined` slots. -/
structure QueryReply where
  ids : List String
  documents : List (Option String)
  distances : List (Option ℚ)
  metadatas : List (Option Metadata)

/-- Backend environment for the read path of `VectorStoreService`:
what `initialize` leaves in `this.collection` (`none` on connection failure —
`initialize` catches and does not rethrow), the result of
`embeddingService.generateEmbedding`, of `collection.count()`, and of
`collection.query` as a function of the query embedding and `nResults`. -/
structure SearchEnv where
  initResult : Option Unit
  embedResult : Except String (List ℚ)
  countResult : Except String Nat
  queryResult : List ℚ → Nat → Except String QueryReply

/-- Default of the `topK` parameter of `searchSimilar`:
`config.vectorSearch.topK`, i.e. `parseInt(process.env.TOP_K_RESULTS || '5')`
modelled on the already-parsed value. -/
def topKConfig (envVar : Option Nat) : Nat := envVar.getD 5

/-- `VectorStoreService.getDocumentCount`: 0 when the collection handle is
null, `result || 0` on success, and 0 when `collection.count()` throws. -/
def getDocumentCount (collection : Option Unit) (env : SearchEnv) : Nat :=
  match collection with
  | none => 0
  | some _ =>
    match env.countResult with
    | Except.ok result => result
    | Except.error _ => 0

/-- `VectorStoreService.getFallbackResponse`. `now` stands for
`new Date().toISOString()`. -/
def getFallbackResponse (queryText : String) (now : String) :
    List SearchResult :=
  [{ articleId := "fallback-001",
     content := "I apologize, but I\x27m currently unable to access my knowledge base to provide specific information about \""
       ++ queryText
       ++ "\". This might be due to a temporary service issue. Please try again in a moment, or feel free to ask your question in a different way.",
     score := 1/2,
     metadata := { title := some "Service Temporarily Unavailable",
                   source := some "System Message",
                   publishedAt := some now } }]

/-- One search result assembled in the loop body of `searchSimilar`:
`articleId := metadatas[i]?.articleId || String(ids[i])` (JS `||`, so an
empty-string articleId also falls back to the id), `content :=
documents[i] || ''`, `score := distances[i] !== undefined ?
Math.max(0, 1 - distances[i]) : 0`, `metadata := metadatas[i] || \x7b\x7d`. -/
def toSearchResult (id : String) (doc : Option String) (dist : Option ℚ)
    (md : Option Metadata) : SearchResult :=
  { articleId :=
      match md with
      | some m => (truthyString m.articleId).getD id
      | none => id,
    content := doc.getD "",
    score :=
      match dist with
      | some d => max 0 (1 - d)
      | none => 0,
    metadata := md.getD {} }

/-- The result-assembly loop of `searchSimilar` over a query reply; when the
reply carries no ids the assembled list stays empty. -/
def buildSearchResults (reply : QueryReply) : List SearchResult :=
  if 0 < reply.ids.length then
    (List.range reply.ids.length).map (fun i =>
      toSearchResult ((reply.ids.get? i).getD "")
        ((reply.documents.get? i).getD none)
        ((reply.distances.get? i).getD none)
        ((reply.metadatas.get? i).getD none))
  else []

/-- The reconnect preamble of `searchSimilar`: `if (!this.collection) await
this.initialize()` — a null handle is replaced by whatever `initialize`
produces (which is again null when the connection fails, since `initialize`
swallows its error). -/
def reconnect (env : SearchEnv) (collection : Option Unit) : Option Unit :=
  match collection with
  | none => env.initResult
  | some c => some c

/-- `VectorStoreService.searchSimilar`: reconnect if the handle is null, fall
back if still null; embed the query, fall back if the document count is 0,
query the collection and assemble results; any error thrown along the way
(embedding, count, query) is caught and degrades to the fallback list. The
function is total — the translation of "never throws". -/
def searchSimilar (env : SearchEnv) (collection : Option Unit)
    (queryText : String) (topK : Nat) (now : String) : List SearchResult :=
  match reconnect env collection with
  | none => getFallbackResponse queryText now
  | some _ =>
    match env.embedResult with
    | Except.error _ => getFallbackResponse queryText now
    | Except.ok queryEmbedding =>
      if getDocumentCount (some ()) env = 0 then
        getFallbackResponse queryText now
      else
        match env.queryResult queryEmbedding topK with
        | Except.error _ => getFallbackResponse queryText now
        | Except.ok results => buildSearchResults results

/-- The argument record of a Chroma `collection.add` call. -/
structure AddRequest where
  ids : List String
  embeddings : List (List ℚ)
  metadatas : List Metadata
  documents : List String

/-- Backend environment for the write path of `VectorStoreService`. -/
structure WriteEnv where
  add : AddRequest → Except String Unit
  delete : List String → Except String Unit

/-- `VectorStoreService.addDocument`: builds a singleton `collection.add`
request; the `catch` block logs and rethrows, so the backend outcome is
propagated unchanged. A null collection handle makes `this.collection.add`
throw a `TypeError`, which is likewise rethrown. -/
def addDocument (env : WriteEnv) (collection : Option Unit)
    (vector : EmbeddingVector) : Except String Unit :=
  match collection with
  | none => Except.error "TypeError: this.collection is null"
  | some _ =>
    env.add { ids := [vector.id], embeddings := [vector.embedding],
              metadatas := [vector.metadata], documents := [vector.content] }

/-- `VectorStoreService.addBatchDocuments`: one `collection.add` call with the
mapped fields; errors are logged and rethrown. -/
def addBatchDocuments (env : WriteEnv) (collection : Option Unit)
    (vectors : List EmbeddingVector) : Except String Unit :=
  match collection with
  | none => Except.error "TypeError: this.collection is null"
  | some _ =>
    env.add { ids := vectors.map EmbeddingVector.id,
              embeddings := vectors.map EmbeddingVector.embedding,
              metadatas := vectors.map EmbeddingVector.metadata,
              documents := vectors.map EmbeddingVector.content }

/-- `VectorStoreService.deleteDocument`: `collection.delete` on the single
id; errors are logged and rethrown. -/
def deleteDocument (env : WriteEnv) (collection : Option Unit) (id : String) :
    Except String Unit :=
  match collection with
  | none => Except.error "TypeError: this.collection is null"
  | some _ => env.delete [id]

/-! Helper lemmas about the retry loops. -/

/-- If every attempt on a model fails retryably, the inner loop consumes
exactly `maxRetries + 1` attempts and reports the last attempt's error. -/
theorem runModel_allRetryable (op : Nat → Attempt) (msg : Nat → String)
    (maxRetries : Nat) (hfail : ∀ a, op a = Attempt.failure true (msg a)) :
    ∀ fuel attempt, attempt + (fuel + 1) = maxRetries + 1 →
      runModel op maxRetries (fuel + 1) attempt =
        ModelRun.exhausted (msg maxRetries) (maxRetries + 1) := by
  intro fuel
  induction fuel with
  | zero =>
    intro attempt h
    have ha : attempt = maxRetries := by omega
    subst ha
    simp [runModel, hfail]
  | succ f ih =>
    intro attempt h
    have ha : attempt ≠ maxRetries := by omega
    have : runModel op maxRetries (f + 1 + 1) attempt =
        runModel op maxRetries (f + 1) (attempt + 1) := by
      simp [runModel, hfail, ha]
    rw [this]
    exact ih (attempt + 1) (by omega)

/-- If every attempt on every model fails retryably, the outer loop visits the
remaining models in wrap-around order, spends `maxRetries + 1` attempts on
each, leaves the preferred index unchanged, and rejects. -/
theorem retryLoop_allRetryable (numModels maxRetries currentModelIndex : Nat)
    (behavior : Nat → Nat → Attempt) (msg : Nat → Nat → String)
    (hfail : ∀ m a, behavior m a = Attempt.failure true (msg m a)) :
    ∀ remaining modelIndex lastError, ∃ e,
      retryLoop numModels behavior currentModelIndex maxRetries lastError
          remaining modelIndex =
        { result := Except.error e, newModelIndex := currentModelIndex,
          trace := (List.range remaining).map
            (fun i => ((currentModelIndex + modelIndex + i) % numModels,
              maxRetries + 1)) } := by
  intro remaining
  induction remaining with
  | zero =>
    intro modelIndex lastError
    exact ⟨lastError, rfl⟩
  | succ r ih =>
    intro modelIndex lastError
    obtain ⟨e, he⟩ := ih (modelIndex + 1)
      (msg ((currentModelIndex + modelIndex) % numModels) maxRetries)
    refine ⟨e, ?_⟩
    have hrun := runModel_allRetryable
      (behavior ((currentModelIndex + modelIndex) % numModels))
      (msg ((currentModelIndex + modelIndex) % numModels)) maxRetries
      (fun a => hfail _ a) maxRetries 0 (by omega)
    simp only [retryLoop, hrun, he]
    refine congrArg _ ?_
    rw [List.range_succ_eq_map]
    simp only [List.map_cons, List.map_map]
    refine congrArg₂ _ (by simp) ?_
    refine List.map_congr_left ?_
    intro i _
    simp only [Function.comp_apply]
    refine congrArg₂ _ ?_ rfl
    congr 1
    omega

/-- The sequence of model indices actually tried is always an initial run of
`(currentModelIndex + i) % numModels` for `i = 0, 1, 2, ...`: candidates are
taken starting from the preferred index and wrap around modulo the number of
models. -/
theorem retryLoop_trace_indices (numModels maxRetries currentModelIndex : Nat)
    (behavior : Nat → Nat → Attempt) :
    ∀ remaining modelIndex lastError,
      (retryLoop numModels behavior currentModelIndex maxRetries lastError
          remaining modelIndex).trace.map Prod.fst =
        (List.range (retryLoop numModels behavior currentModelIndex maxRetries
          lastError remaining modelIndex).trace.length).map
            (fun i => (currentModelIndex + modelIndex + i) % numModels) := by
  intro remaining
  induction remaining with
  | zero => intro modelIndex lastError; rfl
  | succ r ih =>
    intro modelIndex lastError
    simp only [retryLoop]
    cases hrun : runModel
        (behavior ((currentModelIndex + modelIndex) % numModels)) maxRetries
        (maxRetries + 1) 0 with
    | success out used => simp [List.range_succ]
    | exhausted err used =>
      have := ih (modelIndex + 1) err
      simp only [List.map_cons, List.length_cons, this]
      rw [List.range_succ_eq_map]
      simp only [List.map_cons, List.map_map]
      refine congrArg₂ _ (by simp) ?_
      refine List.map_congr_left ?_
      intro i _
      simp only [Function.comp_apply]
      congr 1
      omega

/-- If the wrapped operation succeeds on the first attempt of a model, the
inner loop stops after exactly one attempt with that output. -/
theorem runModel_firstSuccess (op : Nat → Attempt) (maxRetries : Nat)
    (out : String) (h : op 0 = Attempt.success out) :
    runModel op maxRetries (maxRetries + 1) 0 = ModelRun.success out 1 := by
  simp [runModel, h]

/-- C1: for every generation call (`generateResponse` or
`generateStreamResponse`) whose underlying per-model operation always fails
with a retryable error, each configured model is attempted exactly
`maxRetries + 1` times, in order, before moving on, and the call rejects only
after every configured model has exhausted all of its attempts (the trace
covers all `numModels` models and the result is an error). -/
theorem generate_retry_ceiling (numModels maxRetries currentModelIndex : Nat)
    (genBehavior : String → Nat → Nat → Attempt) (msg : Nat → Nat → String)
    (query : String) (context : List SearchResult)
    (hfail : ∀ m a, genBehavior (buildPrompt query (formatContext context)) m a
      = Attempt.failure true (msg m a)) :
    ((generateResponse numModels genBehavior currentModelIndex maxRetries
        query context).trace =
      (List.range numModels).map
        (fun i => ((currentModelIndex + i) % numModels, maxRetries + 1)) ∧
     ∃ e, (generateResponse numModels genBehavior currentModelIndex maxRetries
        query context).result = Except.error e) ∧
    ((generateStreamResponse numModels genBehavior currentModelIndex maxRetries
        query context).trace =
      (List.range numModels).map
        (fun i => ((currentModelIndex + i) % numModels, maxRetries + 1)) ∧
     ∃ e, (generateStreamResponse numModels genBehavior currentModelIndex
        maxRetries query context).result = Except.error e) := by
  obtain ⟨e, he⟩ := retryLoop_allRetryable numModels maxRetries
    currentModelIndex (genBehavior (buildPrompt query (formatContext context)))
    msg hfail numModels 0 "All models failed"
  have htrace : (retryWithBackoff numModels
      (genBehavior (buildPrompt query (formatContext context)))
      currentModelIndex maxRetries).trace =
      (List.range numModels).map
        (fun i => ((currentModelIndex + i) % numModels, maxRetries + 1)) := by
    rw [retryWithBackoff, he]
    simp
  have herr : (retryWithBackoff numModels
      (genBehavior (buildPrompt query (formatContext context)))
      currentModelIndex maxRetries).result = Except.error e := by
    rw [retryWithBackoff, he]
  exact ⟨⟨htrace, e, herr⟩, htrace, e, herr⟩

/-- C1 witness: two models whose operation always fails with a 429 error,
default `maxRetries = 3`: both models are attempted 4 times each, in order,
and both call variants reject. -/
theorem generate_retry_ceiling_witness :
    ((generateResponse 2 (fun _ _ _ => Attempt.failure true "429") 0
        defaultMaxRetries "q" []).trace =
      (List.range 2).map (fun i => ((0 + i) % 2, defaultMaxRetries + 1)) ∧
     ∃ e, (generateResponse 2 (fun _ _ _ => Attempt.failure true "429") 0
        defaultMaxRetries "q" []).result = Except.error e) ∧
    ((generateStreamResponse 2 (fun _ _ _ => Attempt.failure true "429") 0
        defaultMaxRetries "q" []).trace =
      (List.range 2).map (fun i => ((0 + i) % 2, defaultMaxRetries + 1)) ∧
     ∃ e, (generateStreamResponse 2 (fun _ _ _ => Attempt.failure true "429")
        0 defaultMaxRetries "q" []).result = Except.error e) :=
  generate_retry_ceiling 2 defaultMaxRetries 0
    (fun _ _ _ => Attempt.failure true "429") (fun _ _ => "429") "q" []
    (fun _ _ => rfl)

/-- C2: candidate models are tried starting from the current preferred index,
wrapping around modulo the list length (first conjunct, for every call); and
in the scenario with 3 configured models where model index 0 always fails
retryably and model index 1 succeeds, `generateResponse` from preferred index
0 returns model 1's output, records index 1 as the new preferred index, tries
no model beyond index 1, and a subsequent call starting from the recorded
index tries model 1 first and succeeds immediately. -/
theorem generate_model_fallback_ordering (maxRetries : Nat)
    (genBehavior : String → Nat → Nat → Attempt) (m0 : Nat → String)
    (out : String) (query : String) (context : List SearchResult)
    (hfail0 : ∀ a, genBehavior (buildPrompt query (formatContext context)) 0 a
      = Attempt.failure true (m0 a))
    (hsucc : genBehavior (buildPrompt query (formatContext context)) 1 0
      = Attempt.success out) :
    (∀ (n : Nat) (behavior : Nat → Nat → Attempt) (cur maxR : Nat),
      (retryWithBackoff n behavior cur maxR).trace.map Prod.fst =
        (List.range (retryWithBackoff n behavior cur maxR).trace.length).map
          (fun i => (cur + i) % n)) ∧
    (generateResponse 3 genBehavior 0 maxRetries query context).result
      = Except.ok out ∧
    (generateResponse 3 genBehavior 0 maxRetries query context).newModelIndex
      = 1 ∧
    (generateResponse 3 genBehavior 0 maxRetries query context).trace
      = [(0, maxRetries + 1), (1, 1)] ∧
    (generateResponse 3 genBehavior 1 maxRetries query context).trace
      = [(1, 1)] ∧
    (generateResponse 3 genBehavior 1 maxRetries query context).result
      = Except.ok out := by
  have hwrap : ∀ (n : Nat) (behavior : Nat → Nat → Attempt) (cur maxR : Nat),
      (retryWithBackoff n behavior cur maxR).trace.map Prod.fst =
        (List.range (retryWithBackoff n behavior cur maxR).trace.length).map
          (fun i => (cur + i) % n) := by
    intro n behavior cur maxR
    have := retryLoop_trace_indices n maxR cur behavior n 0 "All models failed"
    simpa [retryWithBackoff] using this
  have h0 : runModel
      (genBehavior (buildPrompt query (formatContext context)) 0) maxRetries
      (maxRetries + 1) 0 =
      ModelRun.exhausted (m0 maxRetries) (maxRetries + 1) :=
    runModel_allRetryable _ m0 maxRetries hfail0 maxRetries 0 (by omega)
  have h1 : runModel
      (genBehavior (buildPrompt query (formatContext context)) 1) maxRetries
      (maxRetries + 1) 0 = ModelRun.success out 1 :=
    runModel_firstSuccess _ maxRetries out hsucc
  have hcall1 : generateResponse 3 genBehavior 0 maxRetries query context =
      { result := Except.ok out, newModelIndex := 1,
        trace := [(0, maxRetries + 1), (1, 1)] } := by
    simp [generateResponse, retryWithBackoff, retryLoop, h0, h1]
  have hcall2 : generateResponse 3 genBehavior 1 maxRetries query context =
      { result := Except.ok out, newModelIndex := 1, trace := [(1, 1)] } := by
    simp [generateResponse, retryWithBackoff, retryLoop, h1]
  refine ⟨hwrap, ?_, ?_, ?_, ?_, ?_⟩ <;> simp [hcall1, hcall2]

/-- C2 witness: a concrete behavior where model 0 always fails with a rate
limit error and model 1 succeeds with output ok, default retries. -/
theorem generate_model_fallback_ordering_witness :
    (∀ (n : Nat) (behavior : Nat → Nat → Attempt) (cur maxR : Nat),
      (retryWithBackoff n behavior cur maxR).trace.map Prod.fst =
        (List.range (retryWithBackoff n behavior cur maxR).trace.length).map
          (fun i => (cur + i) % n)) ∧
    (generateResponse 3
      (fun _ m _ => if m = 1 then Attempt.success "ok"
        else Attempt.failure true "rate limit") 0 defaultMaxRetries "q"
      []).result = Except.ok "ok" ∧
    (generateResponse 3
      (fun _ m _ => if m = 1 then Attempt.success "ok"
        else Attempt.failure true "rate limit") 0 defaultMaxRetries "q"
      []).newModelIndex = 1 ∧
    (generateResponse 3
      (fun _ m _ => if m = 1 then Attempt.success "ok"
        else Attempt.failure true "rate limit") 0 defaultMaxRetries "q"
      []).trace = [(0, defaultMaxRetries + 1), (1, 1)] ∧
    (generateResponse 3
      (fun _ m _ => if m = 1 then Attempt.success "ok"
        else Attempt.failure true "rate limit") 1 defaultMaxRetries "q"
      []).trace = [(1, 1)] ∧
    (generateResponse 3
      (fun _ m _ => if m = 1 then Attempt.success "ok"
        else Attempt.failure true "rate limit") 1 defaultMaxRetries "q"
      []).result = Except.ok "ok" :=
  generate_model_fallback_ordering defaultMaxRetries
    (fun _ m _ => if m = 1 then Attempt.success "ok"
      else Attempt.failure true "rate limit")
    (fun _ => "rate limit") "ok" "q" [] (fun _ => rfl) rfl

/-- C10: with an empty context list, `formatContext` returns the fixed string
"No relevant context found.", and both generation entry points still build
the full well-formed prompt around that string and hand it to the
retry/fallback machinery exactly as in the non-empty case — the empty-results
edge case neither raises nor produces a malformed prompt. -/
theorem formatContext_empty_context :
    formatContext [] = "No relevant context found." ∧
    (∀ (numModels currentModelIndex maxRetries : Nat)
      (genBehavior : String → Nat → Nat → Attempt) (query : String),
      generateResponse numModels genBehavior currentModelIndex maxRetries
          query [] =
        retryWithBackoff numModels
          (genBehavior (buildPrompt query "No relevant context found."))
          currentModelIndex maxRetries ∧
      generateStreamResponse numModels genBehavior currentModelIndex
          maxRetries query [] =
        retryWithBackoff numModels
          (genBehavior (buildPrompt query "No relevant context found."))
          currentModelIndex maxRetries ∧
      buildPrompt query "No relevant context found." =
        "You are a helpful AI assistant for a news website. Answer the user\x27s question based on the provided news articles context. If the context doesn\x27t contain relevant information, politely say so and provide what general knowledge you can while being clear about the limitations.\n\nContext from recent news articles:\nNo relevant context found.\n\nUser Question: "
          ++ query
          ++ "\n\nPlease provide a comprehensive answer based on the context above. If you reference information from the articles, be specific about which source you\x27re referencing. Keep your response informative but concise.") :=
  ⟨rfl, fun _ _ _ _ _ => ⟨rfl, rfl, rfl⟩⟩

/-- Score bounds for one assembled result, given that the distance slot, when
present, is nonnegative. -/
theorem toSearchResult_score_bounds (id : String) (doc : Option String)
    (dist : Option ℚ) (md : Option Metadata)
    (h : ∀ x, dist = some x → 0 ≤ x) :
    0 ≤ (toSearchResult id doc dist md).score ∧
      (toSearchResult id doc dist md).score ≤ 1 := by
  cases dist with
  | none => simp [toSearchResult]
  | some x =>
    have hx := h x rfl
    constructor
    · exact le_max_left 0 _
    · exact max_le (by norm_num) (by linarith)

/-- Shared degradation lemma: under any of the four failure conditions
(handle still null after reconnect, embedding throws, empty index, query
throws), `searchSimilar` evaluates to the fallback list. -/
theorem searchSimilar_fallback_cases (env : SearchEnv)
    (collection : Option Unit) (queryText : String) (topK : Nat)
    (now : String)
    (h : reconnect env collection = none ∨
      (∃ e, env.embedResult = Except.error e) ∨
      getDocumentCount (some ()) env = 0 ∨
      (∀ emb, ∃ e, env.queryResult emb topK = Except.error e)) :
    searchSimilar env collection queryText topK now =
      getFallbackResponse queryText now := by
  cases hc : reconnect env collection with
  | none => simp [searchSimilar, hc]
  | some u =>
    cases hemb : env.embedResult with
    | error e => simp [searchSimilar, hc, hemb]
    | ok emb =>
      by_cases hcnt : getDocumentCount (some ()) env = 0
      · simp [searchSimilar, hc, hemb, hcnt]
      · rcases h with h | ⟨e, he⟩ | h | hq
        · rw [hc] at h; exact absurd h (by simp)
        · rw [hemb] at he; exact absurd he (by simp)
        · exact absurd h hcnt
        · obtain ⟨e, he⟩ := hq emb
          simp [searchSimilar, hc, hemb, hcnt, he]

/-- C3: if the collection handle is still null after the one reconnection
attempt, or the embedding call throws, or the document count is 0, or the
collection query throws, `searchSimilar` returns exactly the one synthetic
fallback result — never an empty list — whose metadata has source
"System Message"; and being a total function, it never throws. -/
theorem searchSimilar_unavailable_or_empty_fallback (env : SearchEnv)
    (collection : Option Unit) (queryText : String) (topK : Nat)
    (now : String)
    (h : reconnect env collection = none ∨
      (∃ e, env.embedResult = Except.error e) ∨
      getDocumentCount (some ()) env = 0 ∨
      (∀ emb, ∃ e, env.queryResult emb topK = Except.error e)) :
    searchSimilar env collection queryText topK now =
      getFallbackResponse queryText now ∧
    (searchSimilar env collection queryText topK now).length = 1 ∧
    ∀ r ∈ searchSimilar env collection queryText topK now,
      r.metadata.source = some "System Message" := by
  have hfb := searchSimilar_fallback_cases env collection queryText topK now h
  refine ⟨hfb, ?_, ?_⟩
  · rw [hfb]; rfl
  · rw [hfb]
    intro r hr
    rw [getFallbackResponse, List.mem_singleton] at hr
    rw [hr]

/-- C3 witness: index unreachable (null handle, reconnect fails). -/
theorem searchSimilar_unavailable_or_empty_fallback_witness :
    searchSimilar
        { initResult := none, embedResult := Except.ok [],
          countResult := Except.ok 0,
          queryResult := fun _ _ => Except.error "down" }
        none "what happened" 5 "2024-01-01T00:00:00.000Z" =
      getFallbackResponse "what happened" "2024-01-01T00:00:00.000Z" ∧
    (searchSimilar
        { initResult := none, embedResult := Except.ok [],
          countResult := Except.ok 0,
          queryResult := fun _ _ => Except.error "down" }
        none "what happened" 5 "2024-01-01T00:00:00.000Z").length = 1 ∧
    ∀ r ∈ searchSimilar
        { initResult := none, embedResult := Except.ok [],
          countResult := Except.ok 0,
          queryResult := fun _ _ => Except.error "down" }
        none "what happened" 5 "2024-01-01T00:00:00.000Z",
      r.metadata.source = some "System Message" :=
  searchSimilar_unavailable_or_empty_fallback _ none "what happened" 5
    "2024-01-01T00:00:00.000Z" (Or.inl rfl)

/-- Every member of a `searchSimilar` result list is either the synthetic
fallback result or assembled by `toSearchResult` from some slot of a
successful backend reply. -/
theorem searchSimilar_mem_cases (env : SearchEnv) (collection : Option Unit)
    (queryText : String) (topK : Nat) (now : String) (r : SearchResult)
    (hr : r ∈ searchSimilar env collection queryText topK now) :
    r ∈ getFallbackResponse queryText now ∨
    ∃ emb reply i, env.embedResult = Except.ok emb ∧
      env.queryResult emb topK = Except.ok reply ∧
      r = toSearchResult ((reply.ids.get? i).getD "")
        ((reply.documents.get? i).getD none)
        ((reply.distances.get? i).getD none)
        ((reply.metadatas.get? i).getD none) := by
  cases hc : reconnect env collection with
  | none =>
    simp only [searchSimilar, hc] at hr
    exact Or.inl hr
  | some u =>
    cases hemb : env.embedResult with
    | error e =>
      simp only [searchSimilar, hc, hemb] at hr
      exact Or.inl hr
    | ok emb =>
      by_cases hcnt : getDocumentCount (some ()) env = 0
      · simp only [searchSimilar, hc, hemb, if_pos hcnt] at hr
        exact Or.inl hr
      · cases hq : env.queryResult emb topK with
        | error e =>
          simp only [searchSimilar, hc, hemb, if_neg hcnt, hq] at hr
          exact Or.inl hr
        | ok reply =>
          simp only [searchSimilar, hc, hemb, if_neg hcnt, hq,
            buildSearchResults] at hr
          by_cases hlen : 0 < reply.ids.length
          · rw [if_pos hlen] at hr
            rw [List.mem_map] at hr
            obtain ⟨i, _, hi⟩ := hr
            exact Or.inr ⟨emb, reply, i, rfl, hq, hi.symm⟩
          · rw [if_neg hlen] at hr
            simp at hr

/-- The per-result score is never negative, whatever the distance slot
holds. -/
theorem toSearchResult_score_nonneg (id : String) (doc : Option String)
    (dist : Option ℚ) (md : Option Metadata) :
    0 ≤ (toSearchResult id doc dist md).score := by
  cases dist with
  | none => simp [toSearchResult]
  | some x => exact le_max_left 0 _

/-- C4 (amended): every score produced by `searchSimilar` (computed as
`max(0, 1 - d)` or the fallback 1/2) is nonnegative, unconditionally; and it
is at most 1 provided every distance the backend returns is nonnegative (as
with Chroma's default L2 metric). The claim's unconditional upper bound over
every possible distance value fails — see the counterexample with d = -1. -/
theorem searchSimilar_score_bounds :
    (∀ (env : SearchEnv) (collection : Option Unit) (queryText : String)
      (topK : Nat) (now : String),
      ∀ r ∈ searchSimilar env collection queryText topK now,
        0 ≤ r.score) ∧
    (∀ (env : SearchEnv) (collection : Option Unit) (queryText : String)
      (topK : Nat) (now : String),
      (∀ emb reply, env.queryResult emb topK = Except.ok reply →
        ∀ x : ℚ, some x ∈ reply.distances → 0 ≤ x) →
      ∀ r ∈ searchSimilar env collection queryText topK now,
        r.score ≤ 1) := by
  have hfb : ∀ (q now : String), ∀ s ∈ getFallbackResponse q now,
      0 ≤ s.score ∧ s.score ≤ 1 := by
    intro q now s hs
    rw [getFallbackResponse, List.mem_singleton] at hs
    rw [hs]
    norm_num
  constructor
  · intro env collection queryText topK now r hr
    rcases searchSimilar_mem_cases env collection queryText topK now r hr
      with hm | ⟨emb, reply, i, _, _, hm⟩
    · exact (hfb queryText now r hm).1
    · rw [hm]
      exact toSearchResult_score_nonneg _ _ _ _
  · intro env collection queryText topK now h r hr
    rcases searchSimilar_mem_cases env collection queryText topK now r hr
      with hm | ⟨emb, reply, i, _, hq, hm⟩
    · exact (hfb queryText now r hm).2
    · rw [hm]
      refine (toSearchResult_score_bounds _ _ _ _ ?_).2
      intro x hx
      refine h emb reply hq x ?_
      cases hget : reply.distances.get? i with
      | none => rw [hget] at hx; simp at hx
      | some d =>
        rw [hget] at hx
        simp only [Option.getD_some] at hx
        rw [← hx]
        exact List.get?_mem hget

/-- C4 witness: a backend reply with the nonnegative distances 0 and 3/2. -/
theorem searchSimilar_score_bounds_witness :
    (∀ r ∈ searchSimilar
        { initResult := some (), embedResult := Except.ok [],
          countResult := Except.ok 2,
          queryResult := fun _ _ => Except.ok
            { ids := ["a", "b"], documents := [some "da", some "db"],
              distances := [some 0, some (3/2)], metadatas := [none, none] } }
        (some ()) "q" 5 "t",
      0 ≤ r.score) ∧
    (∀ r ∈ searchSimilar
        { initResult := some (), embedResult := Except.ok [],
          countResult := Except.ok 2,
          queryResult := fun _ _ => Except.ok
            { ids := ["a", "b"], documents := [some "da", some "db"],
              distances := [some 0, some (3/2)], metadatas := [none, none] } }
        (some ()) "q" 5 "t",
      r.score ≤ 1) :=
  ⟨searchSimilar_score_bounds.1 _ (some ()) "q" 5 "t",
   searchSimilar_score_bounds.2 _ (some ()) "q" 5 "t"
    (by intro emb reply hrep x hx
        cases hrep
        simp only [List.mem_cons, List.not_mem_nil, or_false] at hx
        rcases hx with hx | hx <;> · cases hx; norm_num)⟩

/-- C4 counterexample: the claim's unconditional bound `score ≤ 1` for every
possible backend distance is false — a reply with distance -1 produces a
result with score 2. -/
theorem searchSimilar_score_above_one_counterexample :
    ¬ (∀ r ∈ searchSimilar
        { initResult := some (), embedResult := Except.ok [],
          countResult := Except.ok 1,
          queryResult := fun _ _ => Except.ok
            { ids := ["doc-1"], documents := [some "text"],
              distances := [some (-1)], metadatas := [none] } }
        (some ()) "q" 5 "t",
      r.score ≤ 1) := by
  intro hall
  have hres : searchSimilar
      { initResult := some (), embedResult := Except.ok [],
        countResult := Except.ok 1,
        queryResult := fun _ _ => Except.ok
          { ids := ["doc-1"], documents := [some "text"],
            distances := [some (-1)], metadatas := [none] } }
      (some ()) "q" 5 "t" =
      [toSearchResult "doc-1" (some "text") (some (-1)) none] := by
    simp [searchSimilar, reconnect, getDocumentCount, buildSearchResults,
      List.range_succ]
  have hscore : (toSearchResult "doc-1" (some "text") (some (-1)) none).score
      = 2 := by
    show max 0 (1 - (-1) : ℚ) = 2
    rw [show ((1 : ℚ) - (-1)) = 2 by norm_num]
    exact max_eq_right (by norm_num)
  have h2 := hall (toSearchResult "doc-1" (some "text") (some (-1)) none)
    (by rw [hres]; exact List.mem_singleton.mpr rfl)
  rw [hscore] at h2
  norm_num at h2

/-- C9: the synthetic fallback result has score exactly 1/2 (0.5), article id
"fallback-001", and as content the fixed apology template with the query text
interpolated; and 1/2 can exceed the score of a genuine low-similarity
result — a valid (nonnegative) distance of 3/4 yields score 1/4 < 1/2. -/
theorem getFallbackResponse_constant_score (queryText now : String) :
    (∀ r ∈ getFallbackResponse queryText now,
      r.score = 1/2 ∧ r.articleId = "fallback-001" ∧
      r.content =
        "I apologize, but I\x27m currently unable to access my knowledge base to provide specific information about \""
          ++ queryText
          ++ "\". This might be due to a temporary service issue. Please try again in a moment, or feel free to ask your question in a different way.") ∧
    (0 ≤ (3/4 : ℚ) ∧
      (toSearchResult "genuine" (some "text") (some (3/4)) none).score
        < 1/2) := by
  constructor
  · intro r hr
    rw [getFallbackResponse, List.mem_singleton] at hr
    rw [hr]
    exact ⟨rfl, rfl, rfl⟩
  · refine ⟨by norm_num, ?_⟩
    show max 0 (1 - 3/4 : ℚ) < 1/2
    rw [show ((1 : ℚ) - 3/4) = 1/4 by norm_num,
      max_eq_right (by norm_num : (0 : ℚ) ≤ (1/4 : ℚ))]
    norm_num

/-- C7: the write operations return the backend's outcome unchanged — any
backend error is rethrown to the caller (and a null handle itself throws) —
while the read operations never raise: `searchSimilar` degrades to the
fallback list when the collection query throws, and `getDocumentCount`
returns 0 both on a null handle and when `collection.count()` throws. -/
theorem vectorStore_error_semantics :
    (∀ (env : WriteEnv) (v : EmbeddingVector),
      addDocument env (some ()) v =
        env.add { ids := [v.id], embeddings := [v.embedding],
                  metadatas := [v.metadata], documents := [v.content] }) ∧
    (∀ (env : WriteEnv) (vs : List EmbeddingVector),
      addBatchDocuments env (some ()) vs =
        env.add { ids := vs.map EmbeddingVector.id,
                  embeddings := vs.map EmbeddingVector.embedding,
                  metadatas := vs.map EmbeddingVector.metadata,
                  documents := vs.map EmbeddingVector.content }) ∧
    (∀ (env : WriteEnv) (id : String),
      deleteDocument env (some ()) id = env.delete [id]) ∧
    (∀ (env : SearchEnv) (collection : Option Unit) (q : String)
      (topK : Nat) (now : String),
      (∀ emb, ∃ e, env.queryResult emb topK = Except.error e) →
      searchSimilar env collection q topK now =
        getFallbackResponse q now) ∧
    (∀ env : SearchEnv, getDocumentCount none env = 0) ∧
    (∀ (env : SearchEnv) (e : String), env.countResult = Except.error e →
      getDocumentCount (some ()) env = 0) := by
  refine ⟨fun _ _ => rfl, fun _ _ => rfl, fun _ _ => rfl, ?_, fun _ => rfl,
    ?_⟩
  · intro env collection q topK now hq
    exact searchSimilar_fallback_cases env collection q topK now
      (Or.inr (Or.inr (Or.inr hq)))
  · intro env e he
    simp [getDocumentCount, he]

/-- C7 witness: a backend whose add/delete fail propagates those errors; a
backend whose query and count fail degrades to fallback and 0. -/
theorem vectorStore_error_semantics_witness :
    addDocument
        { add := fun _ => Except.error "disk full",
          delete := fun _ => Except.error "delete failed" } (some ())
        { id := "d1", articleId := "a1", content := "txt", embedding := [],
          metadata := {} } = Except.error "disk full" ∧
    addBatchDocuments
        { add := fun _ => Except.error "disk full",
          delete := fun _ => Except.error "delete failed" } (some ())
        [{ id := "d1", articleId := "a1", content := "txt", embedding := [],
           metadata := {} }] = Except.error "disk full" ∧
    deleteDocument
        { add := fun _ => Except.error "disk full",
          delete := fun _ => Except.error "delete failed" } (some ()) "d1"
      = Except.error "delete failed" ∧
    searchSimilar
        { initResult := some (), embedResult := Except.ok [],
          countResult := Except.ok 3,
          queryResult := fun _ _ => Except.error "connection refused" }
        (some ()) "q" 5 "t" = getFallbackResponse "q" "t" ∧
    getDocumentCount none
        { initResult := some (), embedResult := Except.ok [],
          countResult := Except.error "count failed",
          queryResult := fun _ _ => Except.error "connection refused" } = 0 ∧
    getDocumentCount (some ())
        { initResult := some (), embedResult := Except.ok [],
          countResult := Except.error "count failed",
          queryResult := fun _ _ => Except.error "connection refused" }
      = 0 := by
  have h := vectorStore_error_semantics
  refine ⟨(h.1 _ _).trans rfl, (h.2.1 _ _).trans rfl, (h.2.2.1 _ _).trans rfl,
    ?_, h.2.2.2.2.1 _, h.2.2.2.2.2 _ "count failed" rfl⟩
  exact h.2.2.2.1 _ (some ()) "q" 5 "t" (fun _ => ⟨"connection refused", rfl⟩)

/-! ## Embedding Provider Adapter fallback (EmbeddingService) -/

/-- Signed 32-bit coercion performed by the JS `<<` and `&` operators
(`hash = hash & hash; // Convert to 32bit integer`). -/
def toInt32 (n : Int) : Int := (n + 2 ^ 31) % 2 ^ 32 - 2 ^ 31

/-- One step of `simpleHash`: `hash = ((hash << 5) - hash) + char` followed
by `hash = hash & hash`. The shift coerces its operand and result to int32;
the subtraction and addition are exact in doubles at these magnitudes. -/
def simpleHashStep (hash : Int) (char : Nat) : Int :=
  toInt32 (toInt32 (hash * 2 ^ 5) - hash + char)

/-- `EmbeddingService.simpleHash`: fold of `simpleHashStep` over the
characters of the string (`charCodeAt` modelled as the code point, which
agrees on the basic multilingual plane). -/
def simpleHash (str : String) : Int :=
  str.data.foldl (fun h c => simpleHashStep h c.toNat) 0

/-- `EmbeddingService.generateLocalEmbedding`:
`new Array(768).fill(0).map((_, i) => Math.sin(hash + i) * 0.1)` — note the
hard-coded 768. `sin` abstracts `Math.sin`, a pure function of its
argument. -/
def generateLocalEmbedding (sin : Int → ℚ) (text : String) : List ℚ :=
  (List.range 768).map
    (fun (i : Nat) => sin (simpleHash text + (i : Int)) * (1 / 10))

/-- `config.vectorSearch.embeddingDimension`:
`parseInt(process.env.EMBEDDING_DIMENSION || '768', 10)`, modelled on the
already-parsed environment value. -/
def embeddingDimension (envVar : Option Nat) : Nat := envVar.getD 768

/-- C5 (amended): the embedding fallback is deterministic — two independent
calls on the same text produce element-wise identical vectors — and the
returned vector's length is always 768, the hard-coded array size, which
equals the configured embedding dimension only in the default configuration
(the code does not read `config.vectorSearch.embeddingDimension`). -/
theorem generateLocalEmbedding_deterministic (sin : Int → ℚ)
    (t₁ t₂ : String) (h : t₁ = t₂) :
    generateLocalEmbedding sin t₁ = generateLocalEmbedding sin t₂ ∧
    (generateLocalEmbedding sin t₁).length = 768 ∧
    embeddingDimension none = 768 := by
  subst h
  refine ⟨rfl, ?_, rfl⟩
  rw [generateLocalEmbedding, List.length_map, List.length_range]

/-- C5 witness: two calls on the fixed text "news" with a concrete `sin`. -/
theorem generateLocalEmbedding_deterministic_witness :
    ("news" : String) = "news" ∧
    (generateLocalEmbedding (fun _ => 0) "news" =
      generateLocalEmbedding (fun _ => 0) "news" ∧
    (generateLocalEmbedding (fun _ => 0) "news").length = 768 ∧
    embeddingDimension none = 768) :=
  ⟨rfl, generateLocalEmbedding_deterministic (fun _ => 0) "news" "news" rfl⟩

/-- C5 counterexample: with the embedding dimension configured to 10, the
fallback vector still has length 768 — not the configured dimension, so the
claim's "for every configured value of that dimension" fails. -/
theorem generateLocalEmbedding_dimension_counterexample :
    (generateLocalEmbedding (fun _ => 0) "news").length = 768 ∧
    embeddingDimension (some 10) = 10 ∧
    (generateLocalEmbedding (fun _ => 0) "news").length ≠
      embeddingDimension (some 10) := by
  have hlen : (generateLocalEmbedding (fun _ => 0) "news").length = 768 := by
    rw [generateLocalEmbedding, List.length_map, List.length_range]
  exact ⟨hlen, rfl, by rw [hlen]; decide⟩

/-! ## Retrieval-Augmented Query Pipeline (ragService.ts) -/

/-- The `ChatResponse` assembled by `RagService.processQuery`. -/
structure ChatResponse where
  sessionId : String
  response : String
  sources : List SearchResult
  messageId : String
deriving Repr, DecidableEq

/-- Adapter calls observable during one pipeline run, listed in execution
order: the vector-store retrieval, and the generation call together with the
context passed to it. -/
inductive PipeEvent where
  | search (query : String)
  | generate (query : String) (context : List SearchResult)
  | streamGenerate (query : String) (context : List SearchResult)
deriving Repr, DecidableEq

/-- Environment of one `RagService` call: vector-store backend and handle,
Gemini behavior and preferred-model state, configured `topK`, the uuid that
`uuidv4()` will mint, and the clock. -/
structure RagEnv where
  searchEnv : SearchEnv
  collection : Option Unit
  numModels : Nat
  genBehavior : String → Nat → Nat → Attempt
  currentModelIndex : Nat
  topK : Nat
  newMessageId : String
  now : String

/-- `RagService.processQuery`: step 1 search, step 2 generate with the
retrieved results as context, step 3 assemble the response; a generation
rejection is rethrown. The second component records the adapter calls in
execution order. -/
def processQuery (env : RagEnv) (message : String) (sessionId : Option String) :
    Except String ChatResponse × List PipeEvent :=
  let searchResults := searchSimilar env.searchEnv env.collection message
    env.topK env.now
  let gen := generateResponse env.numModels env.genBehavior
    env.currentModelIndex defaultMaxRetries message searchResults
  (match gen.result with
   | Except.ok response =>
     Except.ok { sessionId := sessionId.getD "", response := response,
                 sources := searchResults, messageId := env.newMessageId }
   | Except.error e => Except.error e,
   [PipeEvent.search message, PipeEvent.generate message searchResults])

/-- Result record of `RagService.processStreamQuery`. -/
structure StreamQueryResult where
  response : String
  sources : List SearchResult
  messageId : String
deriving Repr, DecidableEq

/-- `RagService.processStreamQuery`: search, then stream-generate with the
retrieved results as context; the passed-in `messageId` is echoed back. -/
def processStreamQuery (env : RagEnv) (message : String) (messageId : String) :
    Except String StreamQueryResult × List PipeEvent :=
  let searchResults := searchSimilar env.searchEnv env.collection message
    env.topK env.now
  let gen := generateStreamResponse env.numModels env.genBehavior
    env.currentModelIndex defaultMaxRetries message searchResults
  (match gen.result with
   | Except.ok response =>
     Except.ok { response := response, sources := searchResults,
                 messageId := messageId }
   | Except.error e => Except.error e,
   [PipeEvent.search message, PipeEvent.streamGenerate message searchResults])

/-- C6: in both the batch and the streaming path, the event trace is exactly
[search, generate-with-the-search-results] — retrieval completes before the
generation adapter is invoked, and generation is handed precisely the
retrieved list — and any successfully returned response carries exactly the
Search Result list that `searchSimilar` produced for the query. -/
theorem pipeline_sources_and_ordering (env : RagEnv) (message : String)
    (sessionId : Option String) (messageId : String) :
    ((processQuery env message sessionId).2 =
      [PipeEvent.search message,
       PipeEvent.generate message
         (searchSimilar env.searchEnv env.collection message env.topK
           env.now)] ∧
     ∀ resp, (processQuery env message sessionId).1 = Except.ok resp →
       resp.sources =
         searchSimilar env.searchEnv env.collection message env.topK
           env.now) ∧
    ((processStreamQuery env message messageId).2 =
      [PipeEvent.search message,
       PipeEvent.streamGenerate message
         (searchSimilar env.searchEnv env.collection message env.topK
           env.now)] ∧
     ∀ resp, (processStreamQuery env message messageId).1 = Except.ok resp →
       resp.sources =
         searchSimilar env.searchEnv env.collection message env.topK
           env.now) := by
  refine ⟨⟨rfl, ?_⟩, ⟨rfl, ?_⟩⟩
  · intro resp h
    simp only [processQuery] at h
    cases hg : (generateResponse env.numModels env.genBehavior
        env.currentModelIndex defaultMaxRetries message
        (searchSimilar env.searchEnv env.collection message env.topK
          env.now)).result with
    | ok r =>
      rw [hg] at h
      simp only [] at h
      cases h
      rfl
    | error e =>
      rw [hg] at h
      simp at h
  · intro resp h
    simp only [processStreamQuery] at h
    cases hg : (generateStreamResponse env.numModels env.genBehavior
        env.currentModelIndex defaultMaxRetries message
        (searchSimilar env.searchEnv env.collection message env.topK
          env.now)).result with
    | ok r =>
      rw [hg] at h
      simp only [] at h
      cases h
      rfl
    | error e =>
      rw [hg] at h
      simp at h

/-- Concrete pipeline environment for the C6 witness: vector store
unreachable (so retrieval yields the fallback list) and a generation behavior
that succeeds immediately with "answer". -/
def ragWitnessEnv : RagEnv :=
  { searchEnv :=
      { initResult := none, embedResult := Except.ok [],
        countResult := Except.ok 0,
        queryResult := fun _ _ => Except.error "down" },
    collection := none, numModels := 1,
    genBehavior := fun _ _ _ => Attempt.success "answer",
    currentModelIndex := 0, topK := 5, newMessageId := "m-1", now := "t" }

/-- C6 witness: on the concrete environment, both paths record
search-before-generate and the successfully returned response carries the
retrieved source list. -/
theorem pipeline_sources_and_ordering_witness :
    ((processQuery ragWitnessEnv "q" (some "s")).2 =
      [PipeEvent.search "q",
       PipeEvent.generate "q"
         (searchSimilar ragWitnessEnv.searchEnv ragWitnessEnv.collection "q"
           ragWitnessEnv.topK ragWitnessEnv.now)]) ∧
    ({ sessionId := "s", response := "answer",
       sources := searchSimilar ragWitnessEnv.searchEnv
         ragWitnessEnv.collection "q" ragWitnessEnv.topK ragWitnessEnv.now,
       messageId := "m-1" } : ChatResponse).sources =
      searchSimilar ragWitnessEnv.searchEnv ragWitnessEnv.collection "q"
        ragWitnessEnv.topK ragWitnessEnv.now ∧
    ((processStreamQuery ragWitnessEnv "q" "m-1").2 =
      [PipeEvent.search "q",
       PipeEvent.streamGenerate "q"
         (searchSimilar ragWitnessEnv.searchEnv ragWitnessEnv.collection "q"
           ragWitnessEnv.topK ragWitnessEnv.now)]) ∧
    ({ response := "answer",
       sources := searchSimilar ragWitnessEnv.searchEnv
         ragWitnessEnv.collection "q" ragWitnessEnv.topK ragWitnessEnv.now,
       messageId := "m-1" } : StreamQueryResult).sources =
      searchSimilar ragWitnessEnv.searchEnv ragWitnessEnv.collection "q"
        ragWitnessEnv.topK ragWitnessEnv.now := by
  have h := pipeline_sources_and_ordering ragWitnessEnv "q" (some "s") "m-1"
  exact ⟨h.1.1, h.1.2 _ rfl, h.2.1, h.2.2 _ rfl⟩
